import Mathlib

/-!
Verification of the plugin-packaging repository.

The development shallowly embeds three pieces of the source:
  * the recursive wait loop of the NUT test harness
    (src/test/commands/package1/versionCreate.nut.ts, pollUntilComplete);
  * the package-version create-report command
    (PackageVersionCreateReportCommand.run / display);
  * the package list command's record mapping
    (PackageListCommand.mapRecordsToResults).

External SDK collaborators (message catalogs, the packaging SDK's
getCreateVersionReport, convertCamelCaseStringToSentence,
INSTALL_URL_BASE, the project alias lookup) are taken as parameters of
the embedded functions, so every theorem quantifies over them.
-/

/-- The PackageUploadRequest record returned by
`package1:version:create:get --json`, with the field set asserted by the
NUT test (`expect(result).to.have.all.keys(...)`).  `Status` is the raw
string the remote system reports (QUEUED, IN_PROGRESS, SUCCESS, ERROR). -/
structure PackageUploadRequest where
  Id : String
  attributes : String
  IsDeleted : Bool
  CreatedDate : String
  CreatedById : String
  LastModifiedDate : String
  LastModifiedById : String
  SystemModstamp : String
  MetadataPackageId : String
  MetadataPackageVersionId : String
  IsReleaseVersion : Bool
  VersionName : String
  Description : String
  MajorVersion : Nat
  MinorVersion : Nat
  ReleaseNotesUrl : String
  PostInstallUrl : String
  Password : String
  Status : String
  Errors : List String
deriving DecidableEq

/-- Observable events of one run of the wait loop: an execCmd status poll
(tagged with its ordinal) or an `await sleep(ms)`. -/
inductive PollEvent where
  | poll (i : Nat)
  | sleep (ms : Nat)
deriving DecidableEq

/-- Shallow embedding of the test harness wait loop

```
const pollUntilComplete = async (id) => {
  const result = execCmd(...).jsonOutput?.result;
  if (result?.Status === 'SUCCESS') {
    return result;
  } else {
    await sleep(5000);
    await pollUntilComplete(id);
  }
};
```

The sequence of poll responses is modelled by `polls : Nat → PackageUploadRequest`
(the record the i-th execCmd returns), and the unbounded recursion by a
fuel parameter: the result is the list of events performed together with
`none` when the fuel ran out before the loop returned, and `some v` when
the loop returned value `v` within the fuel, `v` being `some result` for
the `return result` branch and `none` (JavaScript `undefined`) for the
else branch, whose `await pollUntilComplete(id)` discards the recursive
value and falls off the function without a return statement. -/
def pollUntilComplete (polls : Nat → PackageUploadRequest) :
    Nat → Nat → List PollEvent × Option (Option PackageUploadRequest)
  | 0, _ => ([], none)
  | fuel + 1, i =>
    let result := polls i
    if result.Status = "SUCCESS" then
      ([PollEvent.poll i], some (some result))
    else
      let rest := pollUntilComplete polls fuel (i + 1)
      (PollEvent.poll i :: PollEvent.sleep 5000 :: rest.1,
        match rest.2 with
        | none => none
        | some _ => some none)

/-- The wait loop terminates on the response sequence `polls`: some
amount of fuel suffices for the recursion started at poll 0 to return. -/
def loopTerminates (polls : Nat → PackageUploadRequest) : Prop :=
  ∃ fuel, (pollUntilComplete polls fuel 0).2 ≠ none

/-- A concrete record with a given status, used to build response
sequences for the wait loop. -/
def recWithStatus (s : String) : PackageUploadRequest :=
  { Id := "0HD000000000001AAA"
    attributes := "PackageUploadRequest"
    IsDeleted := false
    CreatedDate := "2024-01-01T00:00:00.000+0000"
    CreatedById := "005000000000001AAA"
    LastModifiedDate := "2024-01-01T00:05:00.000+0000"
    LastModifiedById := "005000000000001AAA"
    SystemModstamp := "2024-01-01T00:05:00.000+0000"
    MetadataPackageId := "033000000000001AAA"
    MetadataPackageVersionId := "04t000000000001AAA"
    IsReleaseVersion := false
    VersionName := "1gpPackageNUT"
    Description := ""
    MajorVersion := 1
    MinorVersion := 0
    ReleaseNotesUrl := ""
    PostInstallUrl := ""
    Password := ""
    Status := s
    Errors := [] }

/-- Response sequence whose first poll is QUEUED and whose second poll
(and every later one) is SUCCESS. -/
def queuedThenSuccess (n : Nat) : PackageUploadRequest :=
  if n = 0 then recWithStatus "QUEUED" else recWithStatus "SUCCESS"

/-- Response sequence whose every poll reports the terminal failure
status ERROR. -/
def alwaysError (_ : Nat) : PackageUploadRequest :=
  recWithStatus "ERROR"

/-- One unfolding step of the wait loop embedding. -/
theorem pollUntilComplete_succ (polls : Nat → PackageUploadRequest) (fuel i : Nat) :
    pollUntilComplete polls (fuel + 1) i =
      if (polls i).Status = "SUCCESS" then
        ([PollEvent.poll i], some (some (polls i)))
      else
        (PollEvent.poll i :: PollEvent.sleep 5000 :: (pollUntilComplete polls fuel (i + 1)).1,
          match (pollUntilComplete polls fuel (i + 1)).2 with
          | none => none
          | some _ => some none) := by
  rw [pollUntilComplete]

/-- On the all-ERROR response sequence the loop never returns, whatever
the fuel and starting ordinal. -/
theorem pollUntilComplete_alwaysError_none :
    ∀ fuel i, (pollUntilComplete alwaysError fuel i).2 = none := by
  intro fuel
  induction fuel with
  | zero => intro i; rfl
  | succ n ih =>
    intro i
    rw [pollUntilComplete_succ,
      if_neg (show ¬(alwaysError i).Status = "SUCCESS" by simp [alwaysError, recWithStatus])]
    simp [ih (i + 1)]

/-- If the recursion returns within the fuel, some poll reported SUCCESS. -/
theorem pollUntilComplete_returns_success (polls : Nat → PackageUploadRequest) :
    ∀ fuel i, (pollUntilComplete polls fuel i).2 ≠ none →
      ∃ n, (polls n).Status = "SUCCESS" := by
  intro fuel
  induction fuel with
  | zero => intro i h; exact absurd rfl h
  | succ m ih =>
    intro i h
    by_cases hs : (polls i).Status = "SUCCESS"
    · exact ⟨i, hs⟩
    · rw [pollUntilComplete_succ, if_neg hs] at h
      cases hr : (pollUntilComplete polls m (i + 1)).2 with
      | none => rw [hr] at h; exact absurd rfl h
      | some v => exact ih (i + 1) (by rw [hr]; exact Option.some_ne_none v)

/-- If poll `i + k` reports SUCCESS, fuel `k + 1` beginning at poll `i`
suffices for the recursion to return. -/
theorem pollUntilComplete_success_returns (polls : Nat → PackageUploadRequest) :
    ∀ k i, (polls (i + k)).Status = "SUCCESS" →
      (pollUntilComplete polls (k + 1) i).2 ≠ none := by
  intro k
  induction k with
  | zero =>
    intro i h
    simp only [Nat.add_zero] at h
    rw [pollUntilComplete_succ, if_pos h]
    simp
  | succ m ih =>
    intro i h
    by_cases hs : (polls i).Status = "SUCCESS"
    · rw [pollUntilComplete_succ, if_pos hs]; simp
    · rw [pollUntilComplete_succ, if_neg hs]
      have hm : (polls (i + 1 + m)).Status = "SUCCESS" := by
        have : i + 1 + m = i + (m + 1) := by omega
        rw [this]; exact h
      have := ih (i + 1) hm
      cases hr : (pollUntilComplete polls (m + 1) (i + 1)).2 with
      | none => exact absurd hr this
      | some v => simp

/-- True of two adjacent trace events when a poll is followed by a sleep
or a sleep is followed by a poll. -/
def altEvent : PollEvent → PollEvent → Bool
  | PollEvent.poll _, PollEvent.sleep _ => true
  | PollEvent.sleep _, PollEvent.poll _ => true
  | _, _ => false

/-- The event trace of the wait loop is either empty or begins with the
poll at the starting ordinal. -/
theorem pollUntilComplete_trace_shape (polls : Nat → PackageUploadRequest) (fuel i : Nat) :
    (pollUntilComplete polls fuel i).1 = [] ∨
      ∃ t, (pollUntilComplete polls fuel i).1 = PollEvent.poll i :: t := by
  cases fuel with
  | zero => exact Or.inl rfl
  | succ m =>
    rw [pollUntilComplete_succ]
    by_cases hs : (polls i).Status = "SUCCESS"
    · rw [if_pos hs]; exact Or.inr ⟨[], rfl⟩
    · rw [if_neg hs]; exact Or.inr ⟨_, rfl⟩

/-- Every sleep event in the wait loop's trace has duration 5000 ms. -/
theorem pollUntilComplete_sleep_5000 (polls : Nat → PackageUploadRequest) :
    ∀ fuel i ms, PollEvent.sleep ms ∈ (pollUntilComplete polls fuel i).1 → ms = 5000 := by
  intro fuel
  induction fuel with
  | zero => intro i ms h; exact absurd h (List.not_mem_nil _)
  | succ m ih =>
    intro i ms h
    by_cases hs : (polls i).Status = "SUCCESS"
    · rw [pollUntilComplete_succ, if_pos hs] at h
      simp at h
    · rw [pollUntilComplete_succ, if_neg hs] at h
      rcases List.mem_cons.mp h with h1 | h2
      · exact absurd h1 (by simp)
      · rcases List.mem_cons.mp h2 with h3 | h4
        · exact PollEvent.sleep.inj h3
        · exact ih (i + 1) ms h4

/-- The wait loop's trace alternates: polls and sleeps strictly
interleave, so consecutive polls are separated by exactly one sleep. -/
theorem pollUntilComplete_trace_alternates (polls : Nat → PackageUploadRequest) :
    ∀ fuel i, List.Chain' (fun a b => altEvent a b = true) (pollUntilComplete polls fuel i).1 := by
  intro fuel
  induction fuel with
  | zero => intro i; exact List.chain'_nil
  | succ m ih =>
    intro i
    by_cases hs : (polls i).Status = "SUCCESS"
    · rw [pollUntilComplete_succ, if_pos hs]
      exact List.chain'_singleton _
    · rw [pollUntilComplete_succ, if_neg hs]
      have hrest := ih (i + 1)
      rcases pollUntilComplete_trace_shape polls m (i + 1) with hsh | ⟨t, hsh⟩
      · rw [hsh]
        exact List.chain'_cons.mpr ⟨rfl, List.chain'_singleton _⟩
      · rw [hsh]
        rw [hsh] at hrest
        exact List.chain'_cons.mpr ⟨rfl, List.chain'_cons.mpr ⟨rfl, hrest⟩⟩

/-- Claim C1 (code bug): at the sequence whose first poll reports QUEUED
and whose second reports SUCCESS, the wait loop stops after the second
poll but returns JavaScript undefined (modelled as `some none`) rather
than the SUCCESS record: the recursive branch awaits
`pollUntilComplete(id)` without returning its value. -/
theorem pollUntilComplete_discards_late_success :
    (pollUntilComplete queuedThenSuccess 2 0).2 = some none ∧
      (pollUntilComplete queuedThenSuccess 2 0).2 ≠ some (some (queuedThenSuccess 1)) := by
  constructor
  · rfl
  · decide

/-- Claim C2 (counterexample): on an operation whose every poll reports
the failure status ERROR, the wait loop never terminates — no amount of
fuel makes the recursion return. -/
theorem pollUntilComplete_alwaysError_no_termination : ¬loopTerminates alwaysError := by
  rintro ⟨fuel, h⟩
  exact h (pollUntilComplete_alwaysError_none fuel 0)

/-- Claim C2 (amended): the wait loop carries no wait budget and raises
no timeout; it terminates if and only if some poll reports SUCCESS, so an
operation whose every poll reports a failure status is polled forever. -/
theorem loopTerminates_iff_success (polls : Nat → PackageUploadRequest) :
    loopTerminates polls ↔ ∃ n, (polls n).Status = "SUCCESS" := by
  constructor
  · rintro ⟨fuel, h⟩
    exact pollUntilComplete_returns_success polls fuel 0 h
  · rintro ⟨n, h⟩
    exact ⟨n + 1, pollUntilComplete_success_returns polls n 0 (by simpa using h)⟩

/-- Witness for the amended claim C2 at a concrete response sequence. -/
theorem loopTerminates_iff_success_witness : loopTerminates queuedThenSuccess :=
  (loopTerminates_iff_success queuedThenSuccess).mpr ⟨1, by decide⟩

/-- Claim C3: in every run of the wait loop each sleep lasts exactly
5000 ms, and the trace strictly alternates polls and sleeps, so any two
consecutive polls are separated by exactly one five-second sleep — the
same interval on every iteration. -/
theorem pollUntilComplete_fixed_interval (polls : Nat → PackageUploadRequest) (fuel i : Nat) :
    (∀ ms, PollEvent.sleep ms ∈ (pollUntilComplete polls fuel i).1 → ms = 5000) ∧
      List.Chain' (fun a b => altEvent a b = true) (pollUntilComplete polls fuel i).1 :=
  ⟨fun ms h => pollUntilComplete_sleep_5000 polls fuel i ms h,
    pollUntilComplete_trace_alternates polls fuel i⟩

/-- Witness for claim C3 at a concrete response sequence and fuel. -/
theorem pollUntilComplete_fixed_interval_witness :
    (PollEvent.sleep 5000 ∈ (pollUntilComplete queuedThenSuccess 2 0).1 ∧ 5000 = 5000) ∧
      List.Chain' (fun a b => altEvent a b = true) (pollUntilComplete queuedThenSuccess 2 0).1 :=
  ⟨⟨by decide, (pollUntilComplete_fixed_interval queuedThenSuccess 2 0).1 5000 (by decide)⟩,
    (pollUntilComplete_fixed_interval queuedThenSuccess 2 0).2⟩

/-- The PackageVersionCreateRequestResult record fetched by
`getCreateVersionReport`.  The fields are those the report command reads
plus the remaining fields of the SDK result type, so that the machine
(json) output carries the full record. -/
structure PackageVersionCreateRequestResult where
  Id : String
  Status : String
  Package2Id : String
  Package2VersionId : String
  SubscriberPackageVersionId : String
  Tag : String
  Branch : String
  CreatedDate : String
  CreatedBy : String
  Error : List String
  HasMetadataRemoved : Bool
deriving DecidableEq

/-- One (label, value) row of the human key/value table. -/
structure Row where
  key : String
  value : String
deriving DecidableEq

/-- Modelled from the spec: the repository's package_version_create_list
message catalog (messages/ directory, not under src/), which supplies the
human labels the report command looks up by key; the label strings are
the ones the spec's scenario and field enumeration name. -/
def pvclMessage : String → String
  | "id" => "Id"
  | "status" => "Status"
  | "packageId" => "Package Id"
  | "packageVersionId" => "Package Version Id"
  | "subscriberPackageVersionId" => "Subscriber Package Version Id"
  | "tag" => "Tag"
  | "branch" => "Branch"
  | "installUrl" => "Install URL"
  | _ => ""

/-- Modelled from the spec: the repository's package_list message catalog
entry the report command uses for the created-by label. -/
def plMessage : String → String
  | "createdBy" => "Created By"
  | _ => ""

/-- Shallow embedding of PackageVersionCreateReportCommand.display.  The
SDK collaborators `convertCamelCaseStringToSentence` and
`INSTALL_URL_BASE` are parameters.  The result is the `data` array of
(key, value) rows handed to `this.ux.table`, paired with the record as
it stands after the call: the body only reads `record`, so the second
component is the unchanged input. -/
def display (convertCamelCaseStringToSentence : String → String)
    (INSTALL_URL_BASE : String) (record : PackageVersionCreateRequestResult) :
    List Row × PackageVersionCreateRequestResult :=
  let installUrlValue :=
    if record.Status = "Success" then INSTALL_URL_BASE ++ record.SubscriberPackageVersionId
    else ""
  ([{ key := pvclMessage "id", value := record.Id },
    { key := pvclMessage "status", value := convertCamelCaseStringToSentence record.Status },
    { key := pvclMessage "packageId", value := record.Package2Id },
    { key := pvclMessage "packageVersionId", value := record.Package2VersionId },
    { key := pvclMessage "subscriberPackageVersionId", value := record.SubscriberPackageVersionId },
    { key := pvclMessage "tag", value := record.Tag },
    { key := pvclMessage "branch", value := record.Branch },
    { key := "Created Date", value := record.CreatedDate },
    { key := pvclMessage "installUrl", value := installUrlValue },
    { key := plMessage "createdBy", value := record.CreatedBy }],
   record)

/-- Shallow embedding of PackageVersionCreateReportCommand.run.  The SDK
call `getCreateVersionReport` is a parameter returning either an error
(NotFoundError, RemoteError, ...; the error type `ε` is abstract) or the
record; run fetches the report, displays it, and returns the record left
by the display call. -/
def PackageVersionCreateReportCommand.run {ε : Type}
    (getCreateVersionReport : String → Except ε PackageVersionCreateRequestResult)
    (convertCamelCaseStringToSentence : String → String) (INSTALL_URL_BASE : String)
    (packagecreaterequestid : String) :
    Except ε PackageVersionCreateRequestResult :=
  match getCreateVersionReport packagecreaterequestid with
  | Except.error e => Except.error e
  | Except.ok result =>
      Except.ok (display convertCamelCaseStringToSentence INSTALL_URL_BASE result).2

/-- A concrete SUCCESS report record for witnesses. -/
def sampleReportRecord : PackageVersionCreateRequestResult :=
  { Id := "08c000000000001AAA"
    Status := "Success"
    Package2Id := "0Ho000000000001AAA"
    Package2VersionId := "05i000000000001AAA"
    SubscriberPackageVersionId := "04t000000000001AAA"
    Tag := ""
    Branch := ""
    CreatedDate := "2024-01-01 00:00"
    CreatedBy := "005000000000001AAA"
    Error := []
    HasMetadataRemoved := false }

/-- A getCreateVersionReport stub that always succeeds with the sample
record. -/
def sampleGetReport (_ : String) : Except String PackageVersionCreateRequestResult :=
  Except.ok sampleReportRecord

/-- A getCreateVersionReport stub that always fails. -/
def failingGetReport (_ : String) : Except String PackageVersionCreateRequestResult :=
  Except.error "NotFoundError"

/-- Claim C4: in the human report the install-URL row's value is the
install URL base concatenated with the record's SubscriberPackageVersionId
exactly when Status is Success, and the empty string (the row still
present) otherwise; the Status row's value is the status run through
convertCamelCaseStringToSentence. -/
theorem display_installUrl_and_status_rows (conv : String → String) (base : String)
    (r : PackageVersionCreateRequestResult) :
    ((display conv base r).1)[8]? =
        some { key := "Install URL",
               value := if r.Status = "Success" then base ++ r.SubscriberPackageVersionId
                 else "" } ∧
      ((display conv base r).1)[1]? = some { key := "Status", value := conv r.Status } := by
  constructor <;> rfl

/-- Claim C5: for every record, whatever its status, the human report is
exactly the fixed ordered ten-row sequence Id, Status, Package Id,
Package Version Id, Subscriber Package Version Id, Tag, Branch, Created
Date, Install URL, Created By. -/
theorem display_fixed_ten_rows (conv : String → String) (base : String)
    (r : PackageVersionCreateRequestResult) :
    ((display conv base r).1).map Row.key =
      ["Id", "Status", "Package Id", "Package Version Id",
        "Subscriber Package Version Id", "Tag", "Branch", "Created Date",
        "Install URL", "Created By"] := by
  rfl

/-- Claim C6: when getCreateVersionReport yields a record, run returns
exactly that record, every field intact. -/
theorem run_returns_fetched_record {ε : Type}
    (report : String → Except ε PackageVersionCreateRequestResult)
    (conv : String → String) (base pid : String) (r : PackageVersionCreateRequestResult)
    (h : report pid = Except.ok r) :
    PackageVersionCreateReportCommand.run report conv base pid = Except.ok r := by
  simp [PackageVersionCreateReportCommand.run, h, display]

/-- Witness for claim C6 at a concrete stub and id. -/
theorem run_returns_fetched_record_witness :
    sampleGetReport "08c000000000001AAA" = Except.ok sampleReportRecord ∧
      PackageVersionCreateReportCommand.run sampleGetReport (fun s => s) "https://base/"
          "08c000000000001AAA" =
        Except.ok sampleReportRecord :=
  ⟨rfl, run_returns_fetched_record sampleGetReport (fun s => s) "https://base/"
    "08c000000000001AAA" sampleReportRecord rfl⟩

/-- Claim C7: an error from getCreateVersionReport propagates out of run
unchanged — no catching, wrapping, or partial result. -/
theorem run_propagates_error {ε : Type}
    (report : String → Except ε PackageVersionCreateRequestResult)
    (conv : String → String) (base pid : String) (e : ε)
    (h : report pid = Except.error e) :
    PackageVersionCreateReportCommand.run report conv base pid = Except.error e := by
  simp [PackageVersionCreateReportCommand.run, h]

/-- Witness for claim C7 at a concrete failing stub. -/
theorem run_propagates_error_witness :
    failingGetReport "unknown-id" = Except.error "NotFoundError" ∧
      PackageVersionCreateReportCommand.run failingGetReport (fun s => s) "https://base/"
          "unknown-id" =
        Except.error "NotFoundError" :=
  ⟨rfl, run_propagates_error failingGetReport (fun s => s) "https://base/" "unknown-id"
    "NotFoundError" rfl⟩

/-- Claim C8: display is deterministic — equal records give identical row
sequences — and leaves the record unmodified. -/
theorem display_deterministic_and_pure (conv : String → String) (base : String)
    (r1 r2 : PackageVersionCreateRequestResult) (h : r1 = r2) :
    (display conv base r1).1 = (display conv base r2).1 ∧
      (display conv base r1).2 = r1 := by
  subst h
  exact ⟨rfl, rfl⟩

/-- Witness for claim C8 at a concrete record. -/
theorem display_deterministic_and_pure_witness :
    (display (fun s => s) "https://base/" sampleReportRecord).1 =
        (display (fun s => s) "https://base/" sampleReportRecord).1 ∧
      (display (fun s => s) "https://base/" sampleReportRecord).2 = sampleReportRecord :=
  display_deterministic_and_pure (fun s => s) "https://base/" sampleReportRecord
    sampleReportRecord rfl

/-- A Package2 record as returned by Package.list, with the fields the
list command destructures plus the IsDeprecated flag it filters on. -/
structure Package2 where
  Id : String
  SubscriberPackageId : String
  Name : String
  Description : String
  NamespacePrefix : String
  ContainerOptions : String
  ConvertedFromPackageId : String
  IsOrgDependent : Bool
  PackageErrorUsername : String
  AppAnalyticsEnabled : Bool
  CreatedById : String
  IsDeprecated : Bool
deriving DecidableEq

/-- The Package2Result row produced per package by the list command. -/
structure Package2Result where
  Id : String
  SubscriberPackageId : String
  Name : String
  Description : String
  NamespacePrefix : String
  ContainerOptions : String
  ConvertedFromPackageId : String
  Alias : String
  IsOrgDependent : String
  PackageErrorUsername : String
  AppAnalyticsEnabled : Bool
  CreatedBy : String
deriving DecidableEq

/-- The per-record mapping inside PackageListCommand.mapRecordsToResults.
The project collaborator `getAliasesFromPackageId` is a parameter; the
JavaScript `join()` on its result is String.intercalate with the default
comma separator. -/
def mapRecord (getAliasesFromPackageId : String → List String) (record : Package2) :
    Package2Result :=
  { Id := record.Id
    SubscriberPackageId := record.SubscriberPackageId
    Name := record.Name
    Description := record.Description
    NamespacePrefix := record.NamespacePrefix
    ContainerOptions := record.ContainerOptions
    ConvertedFromPackageId := record.ConvertedFromPackageId
    Alias := String.intercalate "," (getAliasesFromPackageId record.Id)
    IsOrgDependent :=
      if record.ContainerOptions = "Managed" then "N/A"
      else if record.IsOrgDependent then "Yes" else "No"
    PackageErrorUsername := record.PackageErrorUsername
    AppAnalyticsEnabled := record.AppAnalyticsEnabled
    CreatedBy := record.CreatedById }

/-- Shallow embedding of PackageListCommand.mapRecordsToResults: when the
incoming record list is non-empty, `this.results` is reassigned to the
filtered (IsDeprecated === false) and mapped records in input order;
otherwise `this.results` keeps its previous value (`results`), which the
field initializer sets to the empty list. -/
def mapRecordsToResults (getAliasesFromPackageId : String → List String)
    (results : List Package2Result) (records : List Package2) : List Package2Result :=
  if 0 < records.length then
    (records.filter (fun record => record.IsDeprecated == false)).map
      (mapRecord getAliasesFromPackageId)
  else results

/-- Claim C9: starting from the initial empty results, the list command's
result is exactly the input records with the deprecated ones removed, in
input order, each mapped by the per-record mapping; the empty input gives
the empty result. -/
theorem mapRecordsToResults_filters_deprecated (getAliasesFromPackageId : String → List String)
    (records : List Package2) :
    mapRecordsToResults getAliasesFromPackageId [] records =
        (records.filter (fun record => record.IsDeprecated == false)).map
          (mapRecord getAliasesFromPackageId) ∧
      mapRecordsToResults getAliasesFromPackageId [] [] = [] := by
  constructor
  · cases records with
    | nil => rfl
    | cons r rs => simp [mapRecordsToResults]
  · rfl

/-- Claim C10: the mapped IsOrgDependent field is the string N/A whenever
ContainerOptions is Managed — independently of the IsOrgDependent flag —
and otherwise Yes when the flag is true and No when it is false. -/
theorem mapRecord_isOrgDependent (getAliasesFromPackageId : String → List String)
    (record : Package2) :
    (record.ContainerOptions = "Managed" →
        (mapRecord getAliasesFromPackageId record).IsOrgDependent = "N/A") ∧
      (record.ContainerOptions ≠ "Managed" → record.IsOrgDependent = true →
        (mapRecord getAliasesFromPackageId record).IsOrgDependent = "Yes") ∧
      (record.ContainerOptions ≠ "Managed" → record.IsOrgDependent = false →
        (mapRecord getAliasesFromPackageId record).IsOrgDependent = "No") ∧
      (record.ContainerOptions = "Managed" → ∀ b,
        (mapRecord getAliasesFromPackageId { record with IsOrgDependent := b }).IsOrgDependent =
          "N/A") := by
  refine ⟨fun hm => ?_, fun hm ht => ?_, fun hm hf => ?_, fun hm b => ?_⟩
  · simp [mapRecord, hm]
  · simp [mapRecord, hm, ht]
  · simp [mapRecord, hm, hf]
  · simp [mapRecord, hm]

/-- A concrete managed package record for the claim C10 witness. -/
def sampleManagedPackage2 : Package2 :=
  { Id := "0Ho000000000001AAA"
    SubscriberPackageId := "033000000000001AAA"
    Name := "pkg"
    Description := ""
    NamespacePrefix := "ns"
    ContainerOptions := "Managed"
    ConvertedFromPackageId := ""
    IsOrgDependent := true
    PackageErrorUsername := ""
    AppAnalyticsEnabled := false
    CreatedById := "005000000000001AAA"
    IsDeprecated := false }

/-- Witness for claim C10 at the concrete managed record. -/
theorem mapRecord_isOrgDependent_witness :
    sampleManagedPackage2.ContainerOptions = "Managed" ∧
      (mapRecord (fun _ => []) sampleManagedPackage2).IsOrgDependent = "N/A" ∧
      (mapRecord (fun _ => [])
          { sampleManagedPackage2 with IsOrgDependent := false }).IsOrgDependent = "N/A" :=
  ⟨rfl, (mapRecord_isOrgDependent (fun _ => []) sampleManagedPackage2).1 rfl,
    (mapRecord_isOrgDependent (fun _ => []) sampleManagedPackage2).2.2.2 rfl false⟩
